import Mathlib

/-!
# yak_ros2 : the frame-integration pipeline of `yak_node.cpp`

A shallow embedding of `src/yak_ros2/src/yak_node.cpp`:

* the Eigen values the node computes with (`Vec3`, `Mat3`, `Affine3`), over exact rationals;
* the external collaborators the node calls (tf2 lookup, cv_bridge conversion, the yak
  `FusionServer`, marching cubes, the PLY writer) as a record of functions, `Collaborators`;
* the two callbacks of the `Fusion` class, `depth_image_cb` and `generate_mesh_cb`, and `main`.

Numbers are exact: a C++ `double` or `float` is a rational here, so rounding, infinities and
NaN are outside the model.  The Euclidean norm is the real square root of the squared norm;
comparisons against it are decided exactly through squares.
-/

namespace YakNode

/-! ## Eigen values -/

/-- An `Eigen::Vector3d`. -/
structure Vec3 where
  x : ℚ
  y : ℚ
  z : ℚ
deriving DecidableEq

/-- An `Eigen::Matrix3d`, the linear part of a transform; `mij` is the coefficient of row `i`,
column `j`. -/
structure Mat3 where
  m00 : ℚ
  m01 : ℚ
  m02 : ℚ
  m10 : ℚ
  m11 : ℚ
  m12 : ℚ
  m20 : ℚ
  m21 : ℚ
  m22 : ℚ
deriving DecidableEq

/-- An `Eigen::Affine3d`: the 4x4 matrix with `linear` top left, `translation` top right and
last row `0 0 0 1`. -/
structure Affine3 where
  linear : Mat3
  translation : Vec3
deriving DecidableEq

/-- The vector `a - b`. -/
def Vec3.sub (a b : Vec3) : Vec3 := ⟨a.x - b.x, a.y - b.y, a.z - b.z⟩

/-- The vector `a + b`. -/
def Vec3.add (a b : Vec3) : Vec3 := ⟨a.x + b.x, a.y + b.y, a.z + b.z⟩

/-- The vector `-a`. -/
def Vec3.neg (a : Vec3) : Vec3 := ⟨-a.x, -a.y, -a.z⟩

/-- Eigen `squaredNorm()`: the sum of the squares of the coefficients. -/
def Vec3.squaredNorm (v : Vec3) : ℚ := v.x * v.x + v.y * v.y + v.z * v.z

/-- The test `v.norm() < c`, where Eigen `norm()` is the square root of `squaredNorm()`. -/
def Vec3.norm_lt (v : Vec3) (c : ℚ) : Prop :=
  Real.sqrt ((v.squaredNorm : ℚ) : ℝ) < ((c : ℚ) : ℝ)

/-- The test `v.norm() < c` is decided exactly: it holds when `c` is positive and the squared
norm is below `c * c`. -/
instance Vec3.norm_lt_decidable (v : Vec3) (c : ℚ) : Decidable (v.norm_lt c) :=
  decidable_of_iff (0 < c ∧ v.squaredNorm < c * c) (by
    unfold Vec3.norm_lt
    constructor
    · rintro ⟨hc, h⟩
      have hc2 : (0 : ℝ) < ((c : ℚ) : ℝ) := by exact_mod_cast hc
      rw [Real.sqrt_lt' hc2]
      have h2 : ((v.squaredNorm : ℚ) : ℝ) < ((c * c : ℚ) : ℝ) := by exact_mod_cast h
      rw [pow_two]
      exact_mod_cast h2
    · intro h
      have hc2 : (0 : ℝ) < ((c : ℚ) : ℝ) := lt_of_le_of_lt (Real.sqrt_nonneg _) h
      have hc : 0 < c := by exact_mod_cast hc2
      refine ⟨hc, ?_⟩
      rw [Real.sqrt_lt' hc2, pow_two] at h
      exact_mod_cast h)

/-- The 3x3 identity matrix. -/
def Mat3.Identity : Mat3 := ⟨1, 0, 0, 0, 1, 0, 0, 0, 1⟩

/-- Matrix product `a * b`. -/
def Mat3.mul (a b : Mat3) : Mat3 :=
  ⟨a.m00 * b.m00 + a.m01 * b.m10 + a.m02 * b.m20,
   a.m00 * b.m01 + a.m01 * b.m11 + a.m02 * b.m21,
   a.m00 * b.m02 + a.m01 * b.m12 + a.m02 * b.m22,
   a.m10 * b.m00 + a.m11 * b.m10 + a.m12 * b.m20,
   a.m10 * b.m01 + a.m11 * b.m11 + a.m12 * b.m21,
   a.m10 * b.m02 + a.m11 * b.m12 + a.m12 * b.m22,
   a.m20 * b.m00 + a.m21 * b.m10 + a.m22 * b.m20,
   a.m20 * b.m01 + a.m21 * b.m11 + a.m22 * b.m21,
   a.m20 * b.m02 + a.m21 * b.m12 + a.m22 * b.m22⟩

/-- Matrix-vector product `a * v`. -/
def Mat3.mulVec (a : Mat3) (v : Vec3) : Vec3 :=
  ⟨a.m00 * v.x + a.m01 * v.y + a.m02 * v.z,
   a.m10 * v.x + a.m11 * v.y + a.m12 * v.z,
   a.m20 * v.x + a.m21 * v.y + a.m22 * v.z⟩

/-- Eigen `transpose()`. -/
def Mat3.transpose (a : Mat3) : Mat3 :=
  ⟨a.m00, a.m10, a.m20, a.m01, a.m11, a.m21, a.m02, a.m12, a.m22⟩

/-- Eigen `determinant()` as the 3x3 inverse computes it: the first column against its
cofactors. -/
def Mat3.determinant (a : Mat3) : ℚ :=
  (a.m11 * a.m22 - a.m12 * a.m21) * a.m00 +
  (a.m21 * a.m02 - a.m22 * a.m01) * a.m10 +
  (a.m01 * a.m12 - a.m02 * a.m11) * a.m20

/-- Eigen `inverse()` of a 3x3 matrix: coefficient `(i, j)` is the cofactor of `(j, i)` times
`1 / determinant`.  Where Eigen divides by a zero determinant (and yields infinities), the
rational `1 / 0` is `0`. -/
def Mat3.inverse (a : Mat3) : Mat3 :=
  let invdet : ℚ := 1 / a.determinant
  ⟨(a.m11 * a.m22 - a.m12 * a.m21) * invdet,
   (a.m21 * a.m02 - a.m22 * a.m01) * invdet,
   (a.m01 * a.m12 - a.m02 * a.m11) * invdet,
   (a.m12 * a.m20 - a.m10 * a.m22) * invdet,
   (a.m22 * a.m00 - a.m20 * a.m02) * invdet,
   (a.m02 * a.m10 - a.m00 * a.m12) * invdet,
   (a.m10 * a.m21 - a.m11 * a.m20) * invdet,
   (a.m20 * a.m01 - a.m21 * a.m00) * invdet,
   (a.m00 * a.m11 - a.m01 * a.m10) * invdet⟩

/-- `Eigen::Affine3d::Identity()`. -/
def Affine3.Identity : Affine3 := ⟨Mat3.Identity, ⟨0, 0, 0⟩⟩

/-- `Transform::inverse()` in `Affine` mode: the linear part is inverted as a general matrix
and the translation becomes `-(linear⁻¹ * translation)`. -/
def Affine3.inverse (a : Affine3) : Affine3 :=
  ⟨a.linear.inverse, (a.linear.inverse.mulVec a.translation).neg⟩

/-- The product of two transforms, `a * b`: first `b`, then `a`. -/
def Affine3.mul (a b : Affine3) : Affine3 :=
  ⟨a.linear.mul b.linear, (a.linear.mulVec b.translation).add a.translation⟩

/-- A rigid pose: the linear part is an orthogonal matrix, `Rᵀ R = 1`. -/
def Affine3.IsRigid (a : Affine3) : Prop :=
  a.linear.transpose.mul a.linear = Mat3.Identity

/-! ## Messages and external collaborators -/

/-- A `sensor_msgs::msg::Image`: header stamp and frame, dimensions, encoding, pixel bytes. -/
structure Image where
  stamp_sec : Int
  stamp_nanosec : Nat
  frame_id : String
  height : Nat
  width : Nat
  encoding : String
  data : List Nat
deriving DecidableEq

/-- The `cv::Mat` held by a `cv_bridge::CvImagePtr` (`cv_ptr->image`). -/
structure CvMat where
  rows : Nat
  cols : Nat
  data : List Nat
deriving DecidableEq

/-- A `cv::Vec3i`. -/
structure Vec3i where
  v0 : Int
  v1 : Int
  v2 : Int
deriving DecidableEq

/-- The camera intrinsics `kfusion::Intr`. -/
structure Intr where
  fx : ℚ
  fy : ℚ
  cx : ℚ
  cy : ℚ
deriving DecidableEq

/-- The fields of `kfusion::KinFuParams` that `main` reads or writes.  The type is declared in
the yak library; fields `main` never touches are left out. -/
structure KinFuParams where
  use_pose_hints : Bool
  use_icp : Bool
  update_via_sensor_motion : Bool
  intr : Intr
  cols : Int
  rows : Int
  volume_dims : Vec3i
  volume_resolution : ℚ
  volume_pose : Affine3
  tsdf_trunc_dist : ℚ
  tsdf_max_weight : Int
  raycast_step_factor : ℚ
  gradient_delta_factor : ℚ
deriving DecidableEq

/-- The voxel data returned by `FusionServer::downloadTSDF()`. -/
structure TSDFContainer where
  voxels : List Int
deriving DecidableEq

/-- A `pcl::PolygonMesh`: vertices and the vertex indices of each polygon. -/
structure PolygonMesh where
  cloud : List Vec3
  polygons : List (List Nat)
deriving DecidableEq

/-- The `std_srvs::srv::Trigger` response. -/
structure Trigger_Response where
  success : Bool
  message : String
deriving DecidableEq

/-- The libraries the node calls, as functions.  `V` is the state of a `yak::FusionServer`.
An operation that signals failure by throwing returns `Except.error` with the exception text:

* `lookupTransform target source time timeout` is `tf2_ros::Buffer::lookupTransform` followed by
  `tf2::transformToEigen`; times are in nanoseconds; the error is a `tf2::TransformException`;
* `toCvCopy source encoding` is `cv_bridge::toCvCopy`; the error is a `cv_bridge::Exception`;
* `fuse volume image pose` is `FusionServer::fuse`: its boolean result and the new volume;
* `FusionServer params world_to_volume` is the `yak::FusionServer` constructor;
* `downloadTSDF`, `marchingCubesCPU tsdf scale`, `savePLYFileBinary file_name mesh` are the
  export path; `savePLYFileBinary` returns PCL's status, `0` on success and negative on error. -/
structure Collaborators (V : Type) where
  lookupTransform : String → String → Int → Int → Except String Affine3
  toCvCopy : Image → String → Except String CvMat
  fuse : V → CvMat → Affine3 → Bool × V
  FusionServer : KinFuParams → Affine3 → Except String V
  downloadTSDF : V → TSDFContainer
  marchingCubesCPU : TSDFContainer → ℚ → PolygonMesh
  savePLYFileBinary : String → PolygonMesh → Int

/-- One call a callback makes to a collaborator that converts or integrates a frame. -/
inductive Call where
  | toCvCopy (source : Image) (encoding : String)
  | fuse (image : CvMat) (pose : Affine3)
deriving DecidableEq

/-! ## The `Fusion` class -/

/-- `DEFAULT_MINIMUM_TRANSLATION = 0.00001`. -/
def DEFAULT_MINIMUM_TRANSLATION : ℚ := 1 / 100000

/-- `sensor_msgs::image_encodings::TYPE_16UC1`. -/
def TYPE_16UC1 : String := "16UC1"

/-- The data members of `Fusion` that the callbacks read or write: `tsdf_base_frame_`,
`fusion_`, `params_` and `world_to_camera_prev_`. -/
structure Fusion (V : Type) where
  tsdf_base_frame_ : String
  fusion_ : V
  params_ : KinFuParams
  world_to_camera_prev_ : Affine3

/-- What one run of a callback leaves behind: the object after the call, the conversion and
fuse calls made (in order), the warnings logged, and the exception that left the callback
uncaught (`none` when the callback returned). -/
structure Outcome (V : Type) where
  self : Fusion V
  calls : List Call
  warnings : List String
  escaped : Option String

/-- The lambda `depth_image_cb` of the `Fusion` constructor (lines 53-96).  The pose handed to
`fuse` is `world_to_camera.cast<float>()`; on exact numbers the cast changes nothing. -/
def depth_image_cb {V : Type} (env : Collaborators V) (self : Fusion V) (image_in : Image) :
    Outcome V :=
  match env.lookupTransform self.tsdf_base_frame_ image_in.frame_id
      (image_in.stamp_sec * 1000000000 + (image_in.stamp_nanosec : Int)) 1000000000 with
  | .error ex =>
    -- catch (tf2::TransformException& ex): warn and return
    ⟨self, [], [ex], none⟩
  | .ok world_to_camera =>
    if (world_to_camera.inverse.mul self.world_to_camera_prev_).translation.norm_lt
        DEFAULT_MINIMUM_TRANSLATION then
      ⟨self, [], [], none⟩
    else
      match env.toCvCopy image_in TYPE_16UC1 with
      | .error what =>
        -- no handler around toCvCopy: the exception leaves the callback
        ⟨self, [Call.toCvCopy image_in TYPE_16UC1], [], some what⟩
      | .ok cv_ptr =>
        let fused := env.fuse self.fusion_ cv_ptr world_to_camera
        ⟨{ self with fusion_ := fused.2, world_to_camera_prev_ := world_to_camera },
         [Call.toCvCopy image_in TYPE_16UC1, Call.fuse cv_ptr world_to_camera],
         if fused.1 then [] else ["Failed to fuse image"],
         none⟩

/-- The executor of `rclcpp::spin` delivering depth images in arrival order: each image runs
`depth_image_cb` on the object the previous one left; an exception that leaves a callback
leaves `spin` too, and the remaining images are not delivered. -/
def spin {V : Type} (env : Collaborators V) : Fusion V → List Image → Outcome V
  | self, [] => ⟨self, [], [], none⟩
  | self, image_in :: rest =>
    let first := depth_image_cb env self image_in
    match first.escaped with
    | some what => ⟨first.self, first.calls, first.warnings, some what⟩
    | none =>
      let later := spin env first.self rest
      ⟨later.self, first.calls ++ later.calls, first.warnings ++ later.warnings, later.escaped⟩

/-- The `(image, pose)` arguments of the fuse calls in a list of calls. -/
def fuse_calls : List Call → List (CvMat × Affine3)
  | [] => []
  | Call.fuse image pose :: rest => (image, pose) :: fuse_calls rest
  | Call.toCvCopy _ _ :: rest => fuse_calls rest

/-- The lambda `generate_mesh_cb` of the `Fusion` constructor (lines 100-111): the response it
leaves in `res`.  The status returned by `savePLYFileBinary` is discarded, as in the source. -/
def generate_mesh_cb {V : Type} (env : Collaborators V) (self : Fusion V)
    (res : Trigger_Response) : Trigger_Response :=
  let mc_params_scale := self.params_.volume_resolution
  let mesh := env.marchingCubesCPU (env.downloadTSDF self.fusion_) mc_params_scale
  let _status := env.savePLYFileBinary "cubes.ply" mesh
  { res with success := true }

/-- The `Fusion` constructor: builds the `FusionServer` from the parameters and starts with the
identity as previous camera pose.  It fails when the `FusionServer` constructor throws. -/
def Fusion.new {V : Type} (env : Collaborators V) (params : KinFuParams)
    (world_to_volume : Affine3) (tsdf_base_frame : String) : Except String (Fusion V) :=
  match env.FusionServer params world_to_volume with
  | .error what => .error what
  | .ok fusion => .ok ⟨tsdf_base_frame, fusion, params, Affine3.Identity⟩

/-! ## `main` -/

/-- The node parameters `main` declares, each `none` when it has not been set. -/
structure Parameters where
  tsdf_frame_id : Option String
  use_pose_hints : Option Bool
  use_icp : Option Bool
  update_via_sensor_motion : Option Bool
  fx : Option ℚ
  fy : Option ℚ
  cx : Option ℚ
  cy : Option ℚ
  cols : Option Int
  rows : Option Int
  volume_x : Option Int
  volume_y : Option Int
  volume_z : Option Int
  voxel_resolution : Option ℚ
deriving DecidableEq

/-- `Node::get_parameter_or`: the value of the parameter when it is set, `alternative_value`
otherwise. -/
def get_parameter_or {α : Type} (value : Option α) (alternative_value : α) : α :=
  match value with
  | some v => v
  | none => alternative_value

/-- The `KinFuParams` that `main` assembles (lines 159-190), starting from
`kfusion::KinFuParams::default_params()`, which is passed in as `default_params`. -/
def main_params (default_params : KinFuParams) (p : Parameters) : KinFuParams :=
  let voxels_x := get_parameter_or p.volume_x 640
  let voxels_y := get_parameter_or p.volume_y 640
  let voxels_z := get_parameter_or p.volume_z 192
  let volume_resolution := get_parameter_or p.voxel_resolution (1 / 1000)
  { default_params with
    use_pose_hints := get_parameter_or p.use_pose_hints true
    use_icp := get_parameter_or p.use_icp false
    update_via_sensor_motion := get_parameter_or p.update_via_sensor_motion false
    intr := ⟨get_parameter_or p.fx 550, get_parameter_or p.fy 550,
             get_parameter_or p.cx 320, get_parameter_or p.cy 240⟩
    cols := get_parameter_or p.cols 640
    rows := get_parameter_or p.rows 480
    volume_resolution := volume_resolution
    volume_dims := ⟨voxels_x, voxels_y, voxels_z⟩
    volume_pose := Affine3.Identity
    tsdf_trunc_dist := volume_resolution * 5
    tsdf_max_weight := 50
    raycast_step_factor := 1 / 4
    gradient_delta_factor := 1 / 4 }

/-- The function `main` up to the start of `rclcpp::spin` (lines 135-196): `.ok fusion` when
the `Fusion` object has been constructed and the frame stream starts, `.error what` when an
exception ended the program before that. -/
def main {V : Type} (env : Collaborators V) (default_params : KinFuParams)
    (p : Parameters) : Except String (Fusion V) :=
  let tsdf_base_frame := get_parameter_or p.tsdf_frame_id "tsdf_origin"
  let params := main_params default_params p
  Fusion.new env params Affine3.Identity tsdf_base_frame


/-- The value `m` of `motion_mag` (line 77): `m` is the Euclidean norm of the translation of
`world_to_camera.inverse() * world_to_camera_prev_`. -/
def motion_mag_is (world_to_camera world_to_camera_prev : Affine3) (m : ℝ) : Prop :=
  m = Real.sqrt
    (((world_to_camera.inverse.mul world_to_camera_prev).translation.squaredNorm : ℚ) : ℝ)

/-! ## Scenarios -/

/-- A pose with identity rotation whose origin is at distance `d` along the x axis. -/
def pose_at (d : ℚ) : Affine3 := ⟨Mat3.Identity, ⟨d, 0, 0⟩⟩

/-- A pose turned a quarter turn about the z axis, its origin at distance `d` along x. -/
def turned_pose_at (d : ℚ) : Affine3 := ⟨⟨0, -1, 0, 1, 0, 0, 0, 0, 1⟩, ⟨d, 0, 0⟩⟩

/-- A 1x2 depth image in the `16UC1` encoding. -/
def depth_image : Image := ⟨12, 500, "camera_depth_optical_frame", 1, 2, "16UC1", [256, 512]⟩

/-- A 1x2 colour image, which is not in the `16UC1` encoding. -/
def colour_image : Image :=
  ⟨12, 500, "camera_depth_optical_frame", 1, 2, "rgb8", [1, 2, 3, 4, 5, 6]⟩

/-- Collaborators for the scenarios: the lookup gives `lookup` for every frame, the conversion
succeeds exactly on images already in the requested encoding, every fuse call counts itself
in the volume state and reports `fuse_ok`, and the PLY writer returns `save_status`. -/
def scenario_env (lookup : Except String Affine3) (fuse_ok : Bool) (save_status : Int) :
    Collaborators Nat where
  lookupTransform := fun _ _ _ _ => lookup
  toCvCopy := fun source encoding =>
    if source.encoding = encoding then .ok ⟨source.height, source.width, source.data⟩
    else .error "unsupported conversion"
  fuse := fun volume _ _ => (fuse_ok, volume + 1)
  FusionServer := fun _ _ => .ok 0
  downloadTSDF := fun volume => ⟨[(volume : Int)]⟩
  marchingCubesCPU := fun _ _ => ⟨[], []⟩
  savePLYFileBinary := fun _ _ => save_status

/-- The configuration in which no parameter has been set. -/
def unset_parameters : Parameters :=
  ⟨none, none, none, none, none, none, none, none, none, none, none, none, none, none⟩

/-- A value standing for `kfusion::KinFuParams::default_params()` in the scenarios. -/
def scenario_default_params : KinFuParams :=
  ⟨false, false, false, ⟨0, 0, 0, 0⟩, 0, 0, ⟨0, 0, 0⟩, 0, Affine3.Identity, 0, 0, 0, 0⟩

/-- A freshly constructed pipeline: previous camera pose the identity, no frame fused. -/
def fresh_fusion : Fusion Nat :=
  ⟨"tsdf_origin", 0, main_params scenario_default_params unset_parameters, Affine3.Identity⟩
/-! ## Geometry lemmas -/

theorem Vec3.norm_lt_iff (v : Vec3) (c : ℚ) :
    v.norm_lt c ↔ 0 < c ∧ v.squaredNorm < c * c := by
  unfold Vec3.norm_lt
  constructor
  · intro h
    have hc2 : (0 : ℝ) < ((c : ℚ) : ℝ) := lt_of_le_of_lt (Real.sqrt_nonneg _) h
    refine ⟨by exact_mod_cast hc2, ?_⟩
    rw [Real.sqrt_lt' hc2, pow_two] at h
    exact_mod_cast h
  · rintro ⟨hc, h⟩
    have hc2 : (0 : ℝ) < ((c : ℚ) : ℝ) := by exact_mod_cast hc
    rw [Real.sqrt_lt' hc2, pow_two]
    exact_mod_cast h

theorem Mat3.mul_assoc (a b c : Mat3) : (a.mul b).mul c = a.mul (b.mul c) := by
  simp only [Mat3.mul, Mat3.mk.injEq]
  refine ⟨?_, ?_, ?_, ?_, ?_, ?_, ?_, ?_, ?_⟩ <;> ring

theorem Mat3.mul_Identity (a : Mat3) : a.mul Mat3.Identity = a := by
  cases a
  simp [Mat3.mul, Mat3.Identity]

theorem Mat3.Identity_mul (a : Mat3) : Mat3.Identity.mul a = a := by
  cases a
  simp [Mat3.mul, Mat3.Identity]

theorem Mat3.determinant_mul (a b : Mat3) :
    (a.mul b).determinant = a.determinant * b.determinant := by
  simp only [Mat3.mul, Mat3.determinant]
  ring

theorem Mat3.determinant_transpose (a : Mat3) : a.transpose.determinant = a.determinant := by
  simp only [Mat3.transpose, Mat3.determinant]
  ring

theorem Mat3.mul_inverse (a : Mat3) (h : a.determinant ≠ 0) :
    a.mul a.inverse = Mat3.Identity := by
  have hd := h
  simp only [Mat3.determinant] at hd
  simp only [Mat3.mul, Mat3.inverse, Mat3.Identity, Mat3.determinant, Mat3.mk.injEq]
  refine ⟨?_, ?_, ?_, ?_, ?_, ?_, ?_, ?_, ?_⟩ <;> field_simp <;> ring

theorem Mat3.determinant_ne_zero_of_orthogonal (a : Mat3)
    (h : a.transpose.mul a = Mat3.Identity) : a.determinant ≠ 0 := by
  intro h0
  have h1 := congrArg Mat3.determinant h
  rw [Mat3.determinant_mul, Mat3.determinant_transpose, h0] at h1
  simp [Mat3.determinant, Mat3.Identity] at h1

theorem Mat3.inverse_eq_transpose (a : Mat3) (h : a.transpose.mul a = Mat3.Identity) :
    a.inverse = a.transpose := by
  have hd := Mat3.determinant_ne_zero_of_orthogonal a h
  calc a.inverse = Mat3.Identity.mul a.inverse := (Mat3.Identity_mul _).symm
    _ = (a.transpose.mul a).mul a.inverse := by rw [h]
    _ = a.transpose.mul (a.mul a.inverse) := Mat3.mul_assoc _ _ _
    _ = a.transpose.mul Mat3.Identity := by rw [Mat3.mul_inverse a hd]
    _ = a.transpose := Mat3.mul_Identity _

theorem Mat3.mul_transpose_of_orthogonal (a : Mat3) (h : a.transpose.mul a = Mat3.Identity) :
    a.mul a.transpose = Mat3.Identity := by
  rw [← Mat3.inverse_eq_transpose a h]
  exact Mat3.mul_inverse a (Mat3.determinant_ne_zero_of_orthogonal a h)

theorem Mat3.squaredNorm_transpose_mulVec (a : Mat3) (h : a.transpose.mul a = Mat3.Identity)
    (v : Vec3) : (a.transpose.mulVec v).squaredNorm = v.squaredNorm := by
  have h2 := Mat3.mul_transpose_of_orthogonal a h
  simp only [Mat3.mul, Mat3.transpose, Mat3.Identity, Mat3.mk.injEq] at h2
  obtain ⟨e00, e01, e02, -, e11, e12, -, -, e22⟩ := h2
  simp only [Mat3.mulVec, Mat3.transpose, Vec3.squaredNorm]
  linear_combination (v.x * v.x) * e00 + (2 * v.x * v.y) * e01 + (2 * v.x * v.z) * e02 +
    (v.y * v.y) * e11 + (2 * v.y * v.z) * e12 + (v.z * v.z) * e22

/-- The translation of `cur⁻¹ * prev` for a rigid `cur` is `Rᵀ (prev.t - cur.t)`. -/
theorem Affine3.motion_translation (cur prev : Affine3) (h : cur.IsRigid) :
    (cur.inverse.mul prev).translation =
      cur.linear.transpose.mulVec (prev.translation.sub cur.translation) := by
  have hi := Mat3.inverse_eq_transpose cur.linear h
  simp only [Affine3.mul, Affine3.inverse, hi]
  simp only [Mat3.mulVec, Vec3.add, Vec3.neg, Vec3.sub, Vec3.mk.injEq]
  refine ⟨?_, ?_, ?_⟩ <;> ring

theorem Affine3.motion_squaredNorm (cur prev : Affine3) (h : cur.IsRigid) :
    (cur.inverse.mul prev).translation.squaredNorm =
      (cur.translation.sub prev.translation).squaredNorm := by
  rw [Affine3.motion_translation cur prev h, Mat3.squaredNorm_transpose_mulVec _ h]
  simp only [Vec3.sub, Vec3.squaredNorm]
  ring


/-! ## The depth-image callback, case by case -/

theorem depth_image_cb_lookup_error {V : Type} (env : Collaborators V) (self : Fusion V)
    (image_in : Image) (ex : String)
    (hlookup : env.lookupTransform self.tsdf_base_frame_ image_in.frame_id
      (image_in.stamp_sec * 1000000000 + (image_in.stamp_nanosec : Int)) 1000000000 = .error ex) :
    depth_image_cb env self image_in = ⟨self, [], [ex], none⟩ := by
  simp only [depth_image_cb, hlookup]

theorem depth_image_cb_below {V : Type} (env : Collaborators V) (self : Fusion V)
    (image_in : Image) (world_to_camera : Affine3)
    (hlookup : env.lookupTransform self.tsdf_base_frame_ image_in.frame_id
      (image_in.stamp_sec * 1000000000 + (image_in.stamp_nanosec : Int)) 1000000000 =
        .ok world_to_camera)
    (hbelow : (world_to_camera.inverse.mul self.world_to_camera_prev_).translation.norm_lt
      DEFAULT_MINIMUM_TRANSLATION) :
    depth_image_cb env self image_in = ⟨self, [], [], none⟩ := by
  simp only [depth_image_cb, hlookup, if_pos hbelow]

theorem depth_image_cb_convert_error {V : Type} (env : Collaborators V) (self : Fusion V)
    (image_in : Image) (world_to_camera : Affine3) (what : String)
    (hlookup : env.lookupTransform self.tsdf_base_frame_ image_in.frame_id
      (image_in.stamp_sec * 1000000000 + (image_in.stamp_nanosec : Int)) 1000000000 =
        .ok world_to_camera)
    (hmoved : ¬ (world_to_camera.inverse.mul self.world_to_camera_prev_).translation.norm_lt
      DEFAULT_MINIMUM_TRANSLATION)
    (hconvert : env.toCvCopy image_in TYPE_16UC1 = .error what) :
    depth_image_cb env self image_in =
      ⟨self, [Call.toCvCopy image_in TYPE_16UC1], [], some what⟩ := by
  simp only [depth_image_cb, hlookup, if_neg hmoved, hconvert]

theorem depth_image_cb_fused {V : Type} (env : Collaborators V) (self : Fusion V)
    (image_in : Image) (world_to_camera : Affine3) (cv_ptr : CvMat)
    (hlookup : env.lookupTransform self.tsdf_base_frame_ image_in.frame_id
      (image_in.stamp_sec * 1000000000 + (image_in.stamp_nanosec : Int)) 1000000000 =
        .ok world_to_camera)
    (hmoved : ¬ (world_to_camera.inverse.mul self.world_to_camera_prev_).translation.norm_lt
      DEFAULT_MINIMUM_TRANSLATION)
    (hconvert : env.toCvCopy image_in TYPE_16UC1 = .ok cv_ptr) :
    depth_image_cb env self image_in =
      ⟨{ self with fusion_ := (env.fuse self.fusion_ cv_ptr world_to_camera).2,
                   world_to_camera_prev_ := world_to_camera },
       [Call.toCvCopy image_in TYPE_16UC1, Call.fuse cv_ptr world_to_camera],
       if (env.fuse self.fusion_ cv_ptr world_to_camera).1 then [] else ["Failed to fuse image"],
       none⟩ := by
  simp only [depth_image_cb, hlookup, if_neg hmoved, hconvert]

/-- The motion of an identity-rotation pose at distance `d` from the identity is `d` along x. -/
theorem pose_at_motion (d : ℚ) :
    ((pose_at d).inverse.mul Affine3.Identity).translation = ⟨-d, 0, 0⟩ := by
  simp [pose_at, Affine3.inverse, Affine3.mul, Affine3.Identity, Mat3.inverse, Mat3.mulVec,
    Mat3.Identity, Mat3.determinant, Vec3.add, Vec3.neg]

theorem pose_at_norm_lt (d : ℚ) :
    ((pose_at d).inverse.mul Affine3.Identity).translation.norm_lt DEFAULT_MINIMUM_TRANSLATION ↔
      d * d < 1 / 10000000000 := by
  rw [pose_at_motion, Vec3.norm_lt_iff]
  simp only [Vec3.squaredNorm, DEFAULT_MINIMUM_TRANSLATION]
  norm_num

/-- C1 (the code departs from the claim). A frame that passes the lookup, the motion gate and
the conversion, and whose fuse call reports failure, still replaces the baseline pose: from a
fresh pipeline (baseline the identity) a frame resolved at distance 1 with a failing integrator
leaves `world_to_camera_prev` at the frame's pose, here and after `spin` over that one frame,
although the only fuse call returned `false` and the warning was logged. -/
theorem failed_fuse_still_advances_baseline :
    ((scenario_env (.ok (pose_at 1)) false 0).fuse fresh_fusion.fusion_ ⟨1, 2, [256, 512]⟩
        (pose_at 1)).1 = false ∧
    depth_image_cb (scenario_env (.ok (pose_at 1)) false 0) fresh_fusion depth_image =
      ⟨{ fresh_fusion with fusion_ := 1, world_to_camera_prev_ := pose_at 1 },
       [Call.toCvCopy depth_image TYPE_16UC1, Call.fuse ⟨1, 2, [256, 512]⟩ (pose_at 1)],
       ["Failed to fuse image"], none⟩ ∧
    (spin (scenario_env (.ok (pose_at 1)) false 0) fresh_fusion
        [depth_image]).self.world_to_camera_prev_ = pose_at 1 ∧
    fresh_fusion.world_to_camera_prev_ = Affine3.Identity ∧
    pose_at 1 ≠ Affine3.Identity := by
  have hmoved : ¬ ((pose_at 1).inverse.mul fresh_fusion.world_to_camera_prev_).translation.norm_lt
      DEFAULT_MINIMUM_TRANSLATION := by
    show ¬ ((pose_at 1).inverse.mul Affine3.Identity).translation.norm_lt
      DEFAULT_MINIMUM_TRANSLATION
    rw [pose_at_norm_lt]
    norm_num
  have hcb := depth_image_cb_fused (scenario_env (.ok (pose_at 1)) false 0) fresh_fusion
    depth_image (pose_at 1) ⟨1, 2, [256, 512]⟩ rfl hmoved rfl
  refine ⟨rfl, ?_, ?_, rfl, ?_⟩
  · rw [hcb]; rfl
  · simp only [spin, hcb]
  · simp [pose_at, Affine3.Identity]

/-- C2. When the transform lookup of a frame throws a `tf2::TransformException`, the callback
returns normally, makes no conversion and no fuse call, and leaves the whole `Fusion` object,
baseline pose included, as it was; so delivering that frame and then any frame `next` ends in
the same object, the same conversion and fuse calls and the same completion as delivering
`next` alone. -/
theorem lookup_failure_leaves_pipeline_unchanged {V : Type} (env : Collaborators V)
    (self : Fusion V) (image_in : Image) (ex : String)
    (hlookup : env.lookupTransform self.tsdf_base_frame_ image_in.frame_id
      (image_in.stamp_sec * 1000000000 + (image_in.stamp_nanosec : Int)) 1000000000 =
        .error ex) :
    (depth_image_cb env self image_in).escaped = none ∧
    (depth_image_cb env self image_in).calls = [] ∧
    (depth_image_cb env self image_in).self = self ∧
    (depth_image_cb env self image_in).self.world_to_camera_prev_ = self.world_to_camera_prev_ ∧
    ∀ next : Image,
      (spin env self [image_in, next]).self = (spin env self [next]).self ∧
      (spin env self [image_in, next]).calls = (spin env self [next]).calls ∧
      fuse_calls (spin env self [image_in, next]).calls =
        fuse_calls (spin env self [next]).calls ∧
      (spin env self [image_in, next]).escaped = (spin env self [next]).escaped := by
  have hcb := depth_image_cb_lookup_error env self image_in ex hlookup
  refine ⟨by rw [hcb], by rw [hcb], by rw [hcb], by rw [hcb], ?_⟩
  intro next
  have hspin : ∀ l, spin env self (image_in :: l) =
      ⟨(spin env self l).self, (spin env self l).calls, ex :: (spin env self l).warnings,
        (spin env self l).escaped⟩ := by
    intro l
    rw [spin, hcb]
    simp
  rw [hspin]
  exact ⟨rfl, rfl, rfl, rfl⟩

/-- C2, witnessed: a lookup that times out on a fresh pipeline. -/
theorem lookup_failure_leaves_pipeline_unchanged_witness :
    (depth_image_cb (scenario_env (.error "timeout") true 0) fresh_fusion depth_image).escaped =
      none ∧
    (depth_image_cb (scenario_env (.error "timeout") true 0) fresh_fusion depth_image).calls =
      [] ∧
    (depth_image_cb (scenario_env (.error "timeout") true 0) fresh_fusion depth_image).self =
      fresh_fusion :=
  have h := lookup_failure_leaves_pipeline_unchanged (scenario_env (.error "timeout") true 0)
    fresh_fusion depth_image "timeout" rfl
  ⟨h.1, h.2.1, h.2.2.1⟩

/-- C6 (the code departs from the claim). A frame that passes the lookup and the motion gate
but is not in the `16UC1` encoding: no fuse call is made and the `Fusion` object is unchanged,
but the `cv_bridge` exception is not caught, it leaves the callback, and `spin` stops there,
so the depth image that follows is never delivered. -/
theorem conversion_failure_escapes_callback :
    (scenario_env (.ok (pose_at 1)) true 0).toCvCopy colour_image TYPE_16UC1 =
      .error "unsupported conversion" ∧
    depth_image_cb (scenario_env (.ok (pose_at 1)) true 0) fresh_fusion colour_image =
      ⟨fresh_fusion, [Call.toCvCopy colour_image TYPE_16UC1], [],
        some "unsupported conversion"⟩ ∧
    (depth_image_cb (scenario_env (.ok (pose_at 1)) true 0) fresh_fusion colour_image).escaped ≠
      none ∧
    spin (scenario_env (.ok (pose_at 1)) true 0) fresh_fusion [colour_image, depth_image] =
      ⟨fresh_fusion, [Call.toCvCopy colour_image TYPE_16UC1], [],
        some "unsupported conversion"⟩ := by
  have hmoved : ¬ ((pose_at 1).inverse.mul fresh_fusion.world_to_camera_prev_).translation.norm_lt
      DEFAULT_MINIMUM_TRANSLATION := by
    show ¬ ((pose_at 1).inverse.mul Affine3.Identity).translation.norm_lt
      DEFAULT_MINIMUM_TRANSLATION
    rw [pose_at_norm_lt]
    norm_num
  have hconv : (scenario_env (.ok (pose_at 1)) true 0).toCvCopy colour_image TYPE_16UC1 =
      .error "unsupported conversion" := by
    simp [scenario_env, colour_image, TYPE_16UC1]
  have hcb := depth_image_cb_convert_error (scenario_env (.ok (pose_at 1)) true 0) fresh_fusion
    colour_image (pose_at 1) "unsupported conversion" rfl hmoved hconv
  refine ⟨hconv, hcb, ?_, ?_⟩
  · rw [hcb]; simp
  · simp only [spin, hcb]

/-! ## The claims about `generate_mesh_cb` and `main` -/

/-- C7 (the code departs from the claim). When `savePLYFileBinary` reports an error (status
`-1`), the mesh-export handler still answers `success = true`; it answers `success = true`
for every collaborator, object and incoming response. -/
theorem export_reports_success_when_save_fails :
    (scenario_env (.ok (pose_at 1)) true (-1)).savePLYFileBinary "cubes.ply"
      ((scenario_env (.ok (pose_at 1)) true (-1)).marchingCubesCPU
        ((scenario_env (.ok (pose_at 1)) true (-1)).downloadTSDF fresh_fusion.fusion_)
        fresh_fusion.params_.volume_resolution) = -1 ∧
    (generate_mesh_cb (scenario_env (.ok (pose_at 1)) true (-1)) fresh_fusion
      ⟨false, ""⟩).success = true ∧
    ∀ (V : Type) (env : Collaborators V) (self : Fusion V) (res : Trigger_Response),
      (generate_mesh_cb env self res).success = true :=
  ⟨rfl, rfl, fun _ _ _ _ => rfl⟩

/-- C8, refuted as stated: with `volume_x = 0` and the other parameters unset, `main` does not
abort; the `Fusion` object is constructed, with voxel-grid dimensions `0 x 640 x 192`. -/
theorem main_accepts_zero_volume_dimension :
    ¬ (0 < (0 : Int)) ∧
    main (scenario_env (.ok (pose_at 1)) true 0) scenario_default_params
        { unset_parameters with volume_x := some 0 } =
      .ok ⟨"tsdf_origin", 0,
        main_params scenario_default_params { unset_parameters with volume_x := some 0 },
        Affine3.Identity⟩ ∧
    (main_params scenario_default_params
      { unset_parameters with volume_x := some 0 }).volume_dims = ⟨0, 640, 192⟩ ∧
    ¬ ∃ what, main (scenario_env (.ok (pose_at 1)) true 0) scenario_default_params
        { unset_parameters with volume_x := some 0 } = .error what := by
  refine ⟨by decide, rfl, rfl, ?_⟩
  rintro ⟨what, h⟩
  simp [main, Fusion.new, scenario_env] at h

/-- C8, amended. `main` makes no check of the voxel-grid dimensions: whatever integers are
configured (defaults 640, 640, 192) become `volume_dims` unchanged, the `Fusion` constructor is
always called with them, and startup aborts exactly when the `FusionServer` constructor
throws. -/
theorem main_passes_volume_dimensions_unchecked {V : Type} (env : Collaborators V)
    (default_params : KinFuParams) (p : Parameters) :
    (main_params default_params p).volume_dims =
      ⟨get_parameter_or p.volume_x 640, get_parameter_or p.volume_y 640,
       get_parameter_or p.volume_z 192⟩ ∧
    main env default_params p =
      Fusion.new env (main_params default_params p) Affine3.Identity
        (get_parameter_or p.tsdf_frame_id "tsdf_origin") ∧
    (∀ what, main env default_params p = .error what ↔
      env.FusionServer (main_params default_params p) Affine3.Identity = .error what) ∧
    (∀ fusion, env.FusionServer (main_params default_params p) Affine3.Identity = .ok fusion →
      main env default_params p =
        .ok ⟨get_parameter_or p.tsdf_frame_id "tsdf_origin", fusion,
          main_params default_params p, Affine3.Identity⟩) := by
  refine ⟨rfl, rfl, ?_, ?_⟩
  · intro what
    cases h : env.FusionServer (main_params default_params p) Affine3.Identity <;>
      simp [main, Fusion.new, h]
  · intro fusion h
    unfold main Fusion.new
    simp [h]

/-- C9. With configured voxel resolution `r` (the parameter when set, 0.001 otherwise), the
parameters built by `main` have `volume_resolution = r` and truncation distance exactly
`5 * r`; with nothing set the grid is 640 x 640 x 192, the resolution 0.001 and the
truncation distance 0.005. -/
theorem truncation_distance_is_five_voxels (default_params : KinFuParams) (p : Parameters)
    (r : ℚ) (hr : get_parameter_or p.voxel_resolution (1 / 1000) = r) :
    (main_params default_params p).volume_resolution = r ∧
    (main_params default_params p).tsdf_trunc_dist = 5 * r ∧
    (main_params default_params unset_parameters).volume_dims = ⟨640, 640, 192⟩ ∧
    (main_params default_params unset_parameters).volume_resolution = 1 / 1000 ∧
    (main_params default_params unset_parameters).tsdf_trunc_dist = 5 / 1000 := by
  subst hr
  refine ⟨rfl, ?_, rfl, rfl, ?_⟩
  · simp only [main_params]
    ring
  · simp only [main_params, unset_parameters, get_parameter_or]
    norm_num

/-- C9, witnessed: a configured resolution of 0.002 gives truncation distance 0.01. -/
theorem truncation_distance_is_five_voxels_witness :
    (main_params scenario_default_params
      { unset_parameters with voxel_resolution := some (2 / 1000) }).tsdf_trunc_dist =
        5 * (2 / 1000) :=
  (truncation_distance_is_five_voxels scenario_default_params
    { unset_parameters with voxel_resolution := some (2 / 1000) } (2 / 1000) rfl).2.1

/-! ## The motion magnitude of rigid poses -/

/-- C10. For rigid poses `cur` and `prev`, the motion magnitude the callback computes (the norm
of the translation of `cur⁻¹ * prev`) is the Euclidean distance between the two translations;
it is the same with the two poses exchanged and the same for any other rigid poses with these
translations; and when `cur` and `prev` have the same translation (they differ by a rotation
only) the magnitude is 0 and a frame resolved at `cur` against the baseline `prev` is
dropped. -/
theorem motion_magnitude_is_translation_distance (cur prev : Affine3)
    (hcur : cur.IsRigid) (hprev : prev.IsRigid) (m : ℝ) :
    (motion_mag_is cur prev m ↔
      m = Real.sqrt (((cur.translation.sub prev.translation).squaredNorm : ℚ) : ℝ)) ∧
    (motion_mag_is cur prev m ↔ motion_mag_is prev cur m) ∧
    (∀ cur2 prev2 : Affine3, cur2.IsRigid → prev2.IsRigid →
      cur2.translation = cur.translation → prev2.translation = prev.translation →
      (motion_mag_is cur2 prev2 m ↔ motion_mag_is cur prev m)) ∧
    (cur.translation = prev.translation →
      motion_mag_is cur prev 0 ∧
      ∀ (V : Type) (env : Collaborators V) (self : Fusion V) (image_in : Image),
        self.world_to_camera_prev_ = prev →
        env.lookupTransform self.tsdf_base_frame_ image_in.frame_id
          (image_in.stamp_sec * 1000000000 + (image_in.stamp_nanosec : Int)) 1000000000 =
            .ok cur →
        depth_image_cb env self image_in = ⟨self, [], [], none⟩) := by
  have hswap : (prev.translation.sub cur.translation).squaredNorm =
      (cur.translation.sub prev.translation).squaredNorm := by
    simp only [Vec3.sub, Vec3.squaredNorm]
    ring
  refine ⟨?_, ?_, ?_, ?_⟩
  · unfold motion_mag_is
    rw [Affine3.motion_squaredNorm cur prev hcur]
  · unfold motion_mag_is
    rw [Affine3.motion_squaredNorm cur prev hcur, Affine3.motion_squaredNorm prev cur hprev,
      hswap]
  · intro cur2 prev2 hcur2 _ htc htp
    unfold motion_mag_is
    rw [Affine3.motion_squaredNorm cur prev hcur, Affine3.motion_squaredNorm cur2 prev2 hcur2,
      htc, htp]
  · intro ht
    have hzero : (cur.inverse.mul prev).translation.squaredNorm = 0 := by
      rw [Affine3.motion_squaredNorm cur prev hcur, ht]
      simp only [Vec3.sub, Vec3.squaredNorm]
      ring
    refine ⟨?_, ?_⟩
    · unfold motion_mag_is
      rw [hzero]
      simp
    · intro V env self image_in hself hlookup
      apply depth_image_cb_below env self image_in cur hlookup
      rw [hself, Vec3.norm_lt_iff, hzero]
      simp only [DEFAULT_MINIMUM_TRANSLATION]
      norm_num

/-- C10, witnessed: the baseline at distance 3 along x and a frame resolved at the same point
but turned a quarter turn about z: both poses are rigid, the motion magnitude is 0 and the
frame is dropped. -/
theorem motion_magnitude_is_translation_distance_witness :
    (turned_pose_at 3).IsRigid ∧ (pose_at 3).IsRigid ∧
    turned_pose_at 3 ≠ pose_at 3 ∧
    motion_mag_is (turned_pose_at 3) (pose_at 3) 0 ∧
    depth_image_cb (scenario_env (.ok (turned_pose_at 3)) true 0)
        { fresh_fusion with world_to_camera_prev_ := pose_at 3 } depth_image =
      ⟨{ fresh_fusion with world_to_camera_prev_ := pose_at 3 }, [], [], none⟩ :=
  have hcur : (turned_pose_at 3).IsRigid := by
    simp [Affine3.IsRigid, turned_pose_at, Mat3.transpose, Mat3.mul, Mat3.Identity]
  have hprev : (pose_at 3).IsRigid := by
    simp [Affine3.IsRigid, pose_at, Mat3.transpose, Mat3.mul, Mat3.Identity]
  have hne : turned_pose_at 3 ≠ pose_at 3 := by
    simp [turned_pose_at, pose_at, Mat3.Identity]
  have h := (motion_magnitude_is_translation_distance (turned_pose_at 3) (pose_at 3) hcur hprev
    0).2.2.2 rfl
  ⟨hcur, hprev, hne, h.1,
    h.2 Nat (scenario_env (.ok (turned_pose_at 3)) true 0)
      { fresh_fusion with world_to_camera_prev_ := pose_at 3 } depth_image rfl rfl⟩
end YakNode
